import Mathlib

/-!
Verification of the pickles usage printer (`src/utils/printer.py`).

The module defines four `SimpleNamespace` constant groups (`CommandArgs`,
`DataSources`, `AnalysisTypes`, `DeliveryMethods`) and a single routine
`UsagePrinter.print_usage` that evaluates one f-string over those constants
and prints it to standard output.

Embedding: a namespace is an association list from attribute name to string
value; Python attribute access is `getattr`, which returns the value or an
`AttributeError`.  The f-string is a list of fragments (literal text or an
attribute reference); `render` evaluates the fragments left to right,
failing at the first reference whose attribute is missing, exactly as the
f-string raises during evaluation.  `print_usage` renders over the module's
registry and, on success, performs one write of the text followed by a
newline (Python's `print`).  Note that the f-string in the source contains
an unresolved git merge conflict and references the missing attribute
`AnalysisTypes.COMPREHENSIVE`.
-/

set_option maxRecDepth 8000

namespace Pickles

/-- A `SimpleNamespace` of string constants: attribute name to value. -/
abbrev NS := List (String × String)

/-- `CommandArgs` from `printer.py`. -/
def CommandArgs : NS :=
  [("SOURCE", "--source"), ("ANALYSIS", "--analysis"), ("DELIVERY", "--delivery"),
   ("DAYS", "--days"), ("SCHEDULE", "--schedule"), ("HELP", "--help")]

/-- `DataSources` from `printer.py`. -/
def DataSources : NS :=
  [("DATABASE_ENTRIES", "database_entries"), ("RECENT_DOCUMENTS", "recent_documents")]

/-- `AnalysisTypes` from `printer.py`. -/
def AnalysisTypes : NS :=
  [("DOMI", "domi"), ("AGA", "aga")]

/-- `DeliveryMethods` from `printer.py`. -/
def DeliveryMethods : NS :=
  [("CONSOLE", "console"), ("EMAIL_TEXT", "email_text"), ("EMAIL_HTML", "email_html"),
   ("FILE_TEXT", "file_text"), ("FILE_HTML", "file_html")]

/-- Python attribute access on a namespace of constants: the value, or an
`AttributeError` naming the missing attribute. -/
def getattr (ns : NS) (attr : String) : Except String String :=
  match ns.lookup attr with
  | some v => Except.ok v
  | none => Except.error ("AttributeError: " ++ attr)

/-- The module-level name environment the f-string is evaluated in. -/
abbrev Registry := List (String × NS)

/-- The four constant groups of `printer.py`, under their module names. -/
def theRegistry : Registry :=
  [("CommandArgs", CommandArgs), ("DataSources", DataSources),
   ("AnalysisTypes", AnalysisTypes), ("DeliveryMethods", DeliveryMethods)]

/-- Resolution of a dotted reference `group.attr` of the f-string. -/
def resolve (reg : Registry) (g a : String) : Except String String :=
  match reg.lookup g with
  | some ns => getattr ns a
  | none => Except.error ("NameError: " ++ g)

/-- One fragment of the f-string: literal text, or a reference
`group.attr` between braces. -/
inductive Frag where
  | lit : String → Frag
  | ref : String → String → Frag
deriving DecidableEq

/-- Evaluate the f-string fragments left to right: the concatenation of the
literals and resolved references, or the first `AttributeError`/`NameError`
raised by a reference. -/
def render (reg : Registry) : List Frag → Except String String
  | [] => Except.ok ""
  | Frag.lit s :: rest =>
      match render reg rest with
      | Except.ok t => Except.ok (s ++ t)
      | Except.error e => Except.error e
  | Frag.ref g a :: rest =>
      match resolve reg g a with
      | Except.error e => Except.error e
      | Except.ok v =>
          match render reg rest with
          | Except.ok t => Except.ok (v ++ t)
          | Except.error e => Except.error e

/-- The f-string of `UsagePrinter.print_usage`, fragment by fragment,
transcribed from `printer.py` (including the unresolved merge-conflict
lines and the reference to the undefined `AnalysisTypes.COMPREHENSIVE`). -/
def usageTemplate : List Frag := [
  .lit "\n🥒 Pickles - Personal Insight Analytics System\n\n使用方法:\n  python main.py [オプション]\n\nオプション:\n  ",
  .ref "CommandArgs" "SOURCE",
  .lit "         データソース (",
  .ref "DataSources" "DATABASE_ENTRIES",
  .lit " | ",
  .ref "DataSources" "RECENT_DOCUMENTS",
  .lit ")\n  ",
  .ref "CommandArgs" "ANALYSIS",
  .lit "       分析タイプ (",
  .ref "AnalysisTypes" "DOMI",
  .lit " | ",
  .ref "AnalysisTypes" "AGA",
  .lit ")\n  ",
  .ref "CommandArgs" "DELIVERY",
  .lit "       配信方法 (",
  .ref "DeliveryMethods" "CONSOLE",
  .lit ",",
  .ref "DeliveryMethods" "EMAIL_TEXT",
  .lit ",",
  .ref "DeliveryMethods" "EMAIL_HTML",
  .lit ",",
  .ref "DeliveryMethods" "FILE_TEXT",
  .lit ",",
  .ref "DeliveryMethods" "FILE_HTML",
  .lit ")\n  ",
  .ref "CommandArgs" "DAYS",
  .lit "          取得日数 (デフォルト: 7)\n  ",
  .ref "CommandArgs" "SCHEDULE",
  .lit "      定期実行モード\n  ",
  .ref "CommandArgs" "HELP",
  .lit "          このヘルプを表示\n\n例:\n<<<<<<< HEAD\n  python main.py                                                                # デフォルト: ",
  .ref "DataSources" "DATABASE_ENTRIES",
  .lit "\n  python main.py ",
  .ref "CommandArgs" "SOURCE",
  .lit " ",
  .ref "DataSources" "RECENT_DOCUMENTS",
  .lit " ",
  .ref "CommandArgs" "ANALYSIS",
  .lit " ",
  .ref "AnalysisTypes" "DOMI",
  .lit "\n=======\n  python main.py                                                                # デフォルト: ",
  .ref "DataSources" "RECENT_DOCUMENTS",
  .lit "\n  python main.py ",
  .ref "CommandArgs" "SOURCE",
  .lit " ",
  .ref "DataSources" "RECENT_DOCUMENTS",
  .lit " ",
  .ref "CommandArgs" "ANALYSIS",
  .lit " ",
  .ref "AnalysisTypes" "COMPREHENSIVE",
  .lit "\n>>>>>>> 5a55b1e (feat: デフォルトではnotionの全体から記事を持ってくるようにした)\n  python main.py ",
  .ref "CommandArgs" "DELIVERY",
  .lit " ",
  .ref "DeliveryMethods" "CONSOLE",
  .lit ",",
  .ref "DeliveryMethods" "FILE_HTML",
  .lit " ",
  .ref "CommandArgs" "DAYS",
  .lit " 14\n  python main.py ",
  .ref "CommandArgs" "SCHEDULE",
  .lit "\n        "]

/-- `UsagePrinter.print_usage`: evaluate the f-string over the module
constants and, on success, write it (with the trailing newline `print`
adds) to standard output; the result is the list of writes performed, or
the error raised while evaluating the f-string. -/
def print_usage : Except String (List String) :=
  match render theRegistry usageTemplate with
  | Except.ok usage => Except.ok [usage ++ "\n"]
  | Except.error e => Except.error e

/-- The text an invocation of `print_usage` puts on standard output:
`none` when the call raises before reaching the write. -/
def writtenText : Option String :=
  match print_usage with
  | Except.ok ws => some (String.join ws)
  | Except.error _ => none

/-- `AnalysisTypes` as it would have to be for the f-string to evaluate:
the group extended with the missing `COMPREHENSIVE` key bound to `v`. -/
def AnalysisTypesPatched (v : String) : NS :=
  AnalysisTypes ++ [("COMPREHENSIVE", v)]

/-- The registry with `AnalysisTypes` extended by `COMPREHENSIVE := v`. -/
def patchedRegistry (v : String) : Registry :=
  [("CommandArgs", CommandArgs), ("DataSources", DataSources),
   ("AnalysisTypes", AnalysisTypesPatched v), ("DeliveryMethods", DeliveryMethods)]

/-- The usage text as it would render were `COMPREHENSIVE` defined (with
the placeholder value "comprehensive"). -/
def usageTextPatched : String :=
  match render (patchedRegistry "comprehensive") usageTemplate with
  | Except.ok t => t
  | Except.error _ => ""

/-- Whether `p` occurs as a contiguous substring of `t` (on char lists). -/
def containsB (p : List Char) : List Char → Bool
  | [] => p.isEmpty
  | c :: rest => p.isPrefixOf (c :: rest) || containsB p rest

/-- Number of positions of `t` at which the pattern `p` occurs. -/
def countOcc (p : List Char) : List Char → Nat
  | [] => 0
  | c :: rest => (if p.isPrefixOf (c :: rest) then 1 else 0) + countOcc p rest

/-- Whether `p` occurs in `t` with an occurrence of `q` after it. -/
def containsThen (p q : List Char) : List Char → Bool
  | [] => false
  | c :: rest =>
      (p.isPrefixOf (c :: rest) && containsB q ((c :: rest).drop p.length))
        || containsThen p q rest

/-- `t` contains `p` as a substring. -/
def strContains (t p : String) : Bool := containsB p.data t.data

/-- Number of occurrences of `p` in `t`. -/
def strCount (t p : String) : Nat := countOcc p.data t.data

/-- `t` contains `p`, with `q` occurring after it. -/
def strThen (t p q : String) : Bool := containsThen p.data q.data t.data

/-- The attribute names of a constant group. -/
def keys (ns : NS) : List String := ns.map Prod.fst

/-- The string values of a constant group. -/
def values (ns : NS) : List String := ns.map Prod.snd

/-- The registry invariant of one constant group: non-empty values, and
keys and values each pairwise distinct. -/
abbrev groupInvariant (ns : NS) : Prop :=
  (values ns).all (fun v => v != "") = true ∧ (keys ns).Nodup ∧ (values ns).Nodup

/-- A standard-output stream, as the list of writes it has received. -/
structure Stdout where
  lines : List String

/-- Run one invocation of `print_usage` against a stdout stream: a
successful call appends its single write, a raising call appends nothing. -/
def invoke (reg : Registry) (s : Stdout) : Stdout :=
  match render reg usageTemplate with
  | Except.ok u => ⟨s.lines ++ [u ++ "\n"]⟩
  | Except.error _ => ⟨s.lines⟩

/-- The writes a single invocation performs, as a function of the registry. -/
def writesOf (reg : Registry) : List String :=
  match render reg usageTemplate with
  | Except.ok u => [u ++ "\n"]
  | Except.error _ => []

/-- The empty pattern occurs in every list. -/
theorem containsB_nil (t : List Char) : containsB [] t = true := by
  cases t <;> simp [containsB, List.isPrefixOf, List.isEmpty]

/-- A boolean prefix of `a` is a prefix of `a ++ b`. -/
theorem isPrefixOf_append_right (p a b : List Char) (h : p.isPrefixOf a = true) :
    p.isPrefixOf (a ++ b) = true := by
  induction p generalizing a with
  | nil => simp [List.isPrefixOf]
  | cons c p ih =>
    cases a with
    | nil => simp [List.isPrefixOf] at h
    | cons d a =>
      simp only [List.cons_append, List.isPrefixOf, Bool.and_eq_true] at h ⊢
      exact ⟨h.1, ih a h.2⟩

/-- Every list is a boolean prefix of itself followed by anything. -/
theorem isPrefixOf_self_append (p b : List Char) : p.isPrefixOf (p ++ b) = true := by
  induction p with
  | nil => simp [List.isPrefixOf]
  | cons c p ih => simp [List.isPrefixOf, ih]

/-- Boolean prefix is reflexive. -/
theorem isPrefixOf_refl (p : List Char) : p.isPrefixOf p = true := by
  have h := isPrefixOf_self_append p []
  rwa [List.append_nil] at h

/-- A substring of `a` is a substring of `a ++ b`. -/
theorem containsB_append_left (p a b : List Char) (h : containsB p a = true) :
    containsB p (a ++ b) = true := by
  induction a with
  | nil =>
    cases p with
    | nil => exact containsB_nil b
    | cons x xs => simp [containsB, List.isEmpty] at h
  | cons c a ih =>
    simp only [containsB, Bool.or_eq_true] at h
    simp only [List.cons_append, containsB, Bool.or_eq_true]
    rcases h with h | h
    · exact Or.inl (isPrefixOf_append_right p (c :: a) b h)
    · exact Or.inr (ih h)

/-- A substring of `b` is a substring of `a ++ b`. -/
theorem containsB_append_right (p a b : List Char) (h : containsB p b = true) :
    containsB p (a ++ b) = true := by
  induction a with
  | nil => exact h
  | cons c a ih =>
    simp only [List.cons_append, containsB, Bool.or_eq_true]
    exact Or.inr ih

/-- A boolean prefix decomposes the list it prefixes. -/
theorem isPrefixOf_ex (p : List Char) :
    ∀ t, p.isPrefixOf t = true → ∃ b, t = p ++ b := by
  induction p with
  | nil => intro t _; exact ⟨t, rfl⟩
  | cons c p ih =>
    intro t h
    cases t with
    | nil => simp [List.isPrefixOf] at h
    | cons d t =>
      simp only [List.isPrefixOf, Bool.and_eq_true, beq_iff_eq] at h
      obtain ⟨rfl, h2⟩ := h
      obtain ⟨b, rfl⟩ := ih t h2
      exact ⟨b, rfl⟩

/-- A substring occurrence decomposes the containing list. -/
theorem containsB_ex (p : List Char) :
    ∀ t, containsB p t = true → ∃ a b, t = a ++ p ++ b := by
  intro t
  induction t with
  | nil =>
    intro h
    cases p with
    | nil => exact ⟨[], [], rfl⟩
    | cons c q => simp [containsB, List.isEmpty] at h
  | cons c t ih =>
    intro h
    simp only [containsB, Bool.or_eq_true] at h
    rcases h with h | h
    · obtain ⟨b, hb⟩ := isPrefixOf_ex p _ h
      exact ⟨[], b, by simp [hb]⟩
    · obtain ⟨a, b, hab⟩ := ih h
      exact ⟨c :: a, b, by simp [hab]⟩

/-- Every list contains itself. -/
theorem containsB_self (p : List Char) : containsB p p = true := by
  cases p with
  | nil => simp [containsB, List.isEmpty]
  | cons c r =>
    simp only [containsB, Bool.or_eq_true]
    exact Or.inl (isPrefixOf_refl (c :: r))

/-- Substring containment is transitive. -/
theorem containsB_trans (m s t : List Char) (h1 : containsB m s = true)
    (h2 : containsB s t = true) : containsB m t = true := by
  obtain ⟨a, b, rfl⟩ := containsB_ex s t h2
  rw [List.append_assoc]
  exact containsB_append_right m a (s ++ b) (containsB_append_left m s b h1)

/-- Whenever the template evaluates successfully, every literal fragment of
the template occurs verbatim in the result. -/
theorem render_ok_contains_lit (reg : Registry) :
    ∀ (frags : List Frag) (t s : String), render reg frags = Except.ok t →
      Frag.lit s ∈ frags → containsB s.data t.data = true := by
  intro frags
  induction frags with
  | nil => intro t s _ hmem; cases hmem
  | cons f rest ih =>
    intro t s hr hmem
    cases f with
    | lit s0 =>
      simp only [render] at hr
      cases hrest : render reg rest with
      | error e => rw [hrest] at hr; cases hr
      | ok t0 =>
        rw [hrest] at hr
        cases hr
        rcases List.mem_cons.mp hmem with heq | hmem2
        · injection heq with h
          subst h
          rw [String.data_append]
          exact containsB_append_left _ _ _ (containsB_self _)
        · rw [String.data_append]
          exact containsB_append_right _ _ _ (ih t0 s hrest hmem2)
    | ref g a =>
      simp only [render] at hr
      cases hres : resolve reg g a with
      | error e => rw [hres] at hr; cases hr
      | ok v =>
        rw [hres] at hr
        cases hrest : render reg rest with
        | error e => rw [hrest] at hr; cases hr
        | ok t0 =>
          rw [hrest] at hr
          cases hr
          rcases List.mem_cons.mp hmem with heq | hmem2
          · exact Frag.noConfusion heq
          · rw [String.data_append]
            exact containsB_append_right _ _ _ (ih t0 s hrest hmem2)

/-- One invocation appends exactly its writes to the stdout stream. -/
theorem invoke_lines (reg : Registry) (s : Stdout) :
    (invoke reg s).lines = s.lines ++ writesOf reg := by
  unfold invoke writesOf
  cases render reg usageTemplate <;> simp

/-- Dropping a left factor of an append leaves the right factor. -/
theorem drop_len_append (a b : List String) : (a ++ b).drop a.length = b := by
  induction a with
  | nil => rfl
  | cons x a ih => simp


/-- C1: the claim that `print_usage` always completes successfully (its
only failure mode an I/O error) is violated: evaluating the f-string
raises `AttributeError` for the undefined `AnalysisTypes.COMPREHENSIVE`
before any write, so no invocation reaches standard output. -/
theorem print_usage_raises_attribute_error :
    print_usage = Except.error "AttributeError: COMPREHENSIVE"
    ∧ writtenText = none :=
  ⟨rfl, rfl⟩

/-- C2: the `AnalysisTypes` group defines exactly `DOMI = "domi"` and
`AGA = "aga"`; no `COMPREHENSIVE` key is defined, yet the usage template
references `AnalysisTypes.COMPREHENSIVE`. -/
theorem analysisTypes_exactly_domi_aga :
    AnalysisTypes = [("DOMI", "domi"), ("AGA", "aga")]
    ∧ List.lookup "COMPREHENSIVE" AnalysisTypes = none
    ∧ Frag.ref "AnalysisTypes" "COMPREHENSIVE" ∈ usageTemplate :=
  ⟨rfl, rfl, by decide⟩

/-- C3 as stated is false: an invocation of `print_usage` writes no text
at all (the f-string raises before the write is reached), so there is no
written text containing each flag token exactly once. -/
theorem flags_exactly_once_cex :
    ¬ ∃ t, writtenText = some t
      ∧ strCount t "--source" = 1 ∧ strCount t "--analysis" = 1
      ∧ strCount t "--delivery" = 1 ∧ strCount t "--days" = 1
      ∧ strCount t "--schedule" = 1 ∧ strCount t "--help" = 1 := by
  rintro ⟨t, ht, -⟩
  rw [show writtenText = none from rfl] at ht
  exact Option.noConfusion ht

/-- C3 amended: `print_usage` writes nothing (the f-string raises an
`AttributeError`); in the usage text as it would render with
`COMPREHENSIVE` defined, every flag token appears at least once, but not
exactly once: `--help` once, `--delivery`, `--days` and `--schedule`
twice (options line plus one example), `--source` and `--analysis` three
times (options line plus the example lines of both merge-conflict
branches). -/
theorem flags_occurrence_counts :
    writtenText = none
    ∧ strCount usageTextPatched "--source" = 3
    ∧ strCount usageTextPatched "--analysis" = 3
    ∧ strCount usageTextPatched "--delivery" = 2
    ∧ strCount usageTextPatched "--days" = 2
    ∧ strCount usageTextPatched "--schedule" = 2
    ∧ strCount usageTextPatched "--help" = 1 := by
  refine ⟨rfl, ?_, ?_, ?_, ?_, ?_, ?_⟩ <;> decide

/-- C4: the claim holds of the text the template describes but no
invocation writes it: `print_usage` raises before writing, and the text
as it would render with `COMPREHENSIVE` defined contains both
`DataSources` values and both `AnalysisTypes` values at least once. -/
theorem source_analysis_values_would_appear :
    print_usage = Except.error "AttributeError: COMPREHENSIVE"
    ∧ strContains usageTextPatched "database_entries" = true
    ∧ strContains usageTextPatched "recent_documents" = true
    ∧ strContains usageTextPatched "domi" = true
    ∧ strContains usageTextPatched "aga" = true := by
  refine ⟨rfl, ?_, ?_, ?_, ?_⟩ <;> decide

/-- C5: `print_usage` raises before writing; the text as it would render
with `COMPREHENSIVE` defined contains all five `DeliveryMethods` values,
the comma-joined run of all five in the options line, and the delivery
example line with the literal `console,file_html`. -/
theorem delivery_values_would_appear :
    print_usage = Except.error "AttributeError: COMPREHENSIVE"
    ∧ strContains usageTextPatched "console" = true
    ∧ strContains usageTextPatched "email_text" = true
    ∧ strContains usageTextPatched "email_html" = true
    ∧ strContains usageTextPatched "file_text" = true
    ∧ strContains usageTextPatched "file_html" = true
    ∧ strContains usageTextPatched "console,email_text,email_html,file_text,file_html" = true
    ∧ strContains usageTextPatched "python main.py --delivery console,file_html --days 14" = true := by
  refine ⟨rfl, ?_, ?_, ?_, ?_, ?_, ?_, ?_⟩ <;> decide

/-- C6: `print_usage` raises before writing; the text as it would render
with `COMPREHENSIVE` defined contains `--days` followed at a later
position by `7` (the documented default) and contains `--schedule`. -/
theorem days_default_schedule_would_appear :
    print_usage = Except.error "AttributeError: COMPREHENSIVE"
    ∧ strThen usageTextPatched "--days" "7" = true
    ∧ strContains usageTextPatched "--schedule" = true := by
  refine ⟨rfl, ?_, ?_⟩ <;> decide

/-- C7: `print_usage` is deterministic: for any registry state and any
prior stdout contents, the writes appended by a first invocation and by a
second invocation right after it are the identical list of strings,
namely `writesOf reg`. -/
theorem print_usage_deterministic (reg : Registry) (s : Stdout) :
    ((invoke reg s).lines).drop s.lines.length = writesOf reg
    ∧ ((invoke reg (invoke reg s)).lines).drop (invoke reg s).lines.length = writesOf reg := by
  constructor <;> simp only [invoke_lines] <;> rw [drop_len_append]

/-- C8: in each of the four option groups every key maps to a non-empty
string, keys are pairwise distinct, values are pairwise distinct, and
reading an attribute twice yields the identical value (the groups are
immutable values of the embedding, never mutated by any operation). -/
theorem option_groups_invariant :
    groupInvariant CommandArgs ∧ groupInvariant DataSources
    ∧ groupInvariant AnalysisTypes ∧ groupInvariant DeliveryMethods
    ∧ ∀ ns a, getattr ns a = getattr ns a := by
  refine ⟨?_, ?_, ?_, ?_, fun ns a => rfl⟩ <;> decide

/-- C9: `print_usage` raises before writing; the examples section of the
text as it would render with `COMPREHENSIVE` defined contains the
no-flag invocation line whose implied default is `database_entries`, an
invocation combining the source and analysis flags, an invocation
combining comma-joined delivery values with a days override, and an
invocation using only the schedule flag. -/
theorem examples_section_would_appear :
    print_usage = Except.error "AttributeError: COMPREHENSIVE"
    ∧ strContains usageTextPatched "\n  python main.py                                                                # デフォルト: database_entries\n" = true
    ∧ strContains usageTextPatched "python main.py --source recent_documents --analysis domi" = true
    ∧ strContains usageTextPatched "python main.py --delivery console,file_html --days 14" = true
    ∧ strContains usageTextPatched "python main.py --schedule\n" = true := by
  refine ⟨rfl, ?_, ?_, ?_, ?_⟩ <;> decide

/-- C10: the usage template carries the unresolved merge-conflict marker
lines and both branches' no-argument example lines: every successful
evaluation of the template, whatever the registry, yields text containing
the three conflict markers verbatim, and the text as it would render with
`COMPREHENSIVE` defined contains both conflicting default-source example
lines (`デフォルト: database_entries` and `デフォルト: recent_documents`). -/
theorem usage_contains_conflict_markers :
    (∀ reg t, render reg usageTemplate = Except.ok t →
        strContains t "\n<<<<<<< HEAD\n" = true
        ∧ strContains t "\n=======\n" = true
        ∧ strContains t "\n>>>>>>> 5a55b1e (feat: デフォルトではnotionの全体から記事を持ってくるようにした)\n" = true)
    ∧ render (patchedRegistry "comprehensive") usageTemplate = Except.ok usageTextPatched
    ∧ strContains usageTextPatched "# デフォルト: database_entries\n" = true
    ∧ strContains usageTextPatched "# デフォルト: recent_documents\n" = true := by
  refine ⟨?_, rfl, by decide, by decide⟩
  intro reg t hr
  refine ⟨?_, ?_, ?_⟩
  · exact containsB_trans _ _ _ (by decide)
      (render_ok_contains_lit reg usageTemplate t
        "          このヘルプを表示\n\n例:\n<<<<<<< HEAD\n  python main.py                                                                # デフォルト: " hr (by decide))
  · exact containsB_trans _ _ _ (by decide)
      (render_ok_contains_lit reg usageTemplate t
        "\n=======\n  python main.py                                                                # デフォルト: " hr (by decide))
  · exact containsB_trans _ _ _ (by decide)
      (render_ok_contains_lit reg usageTemplate t
        "\n>>>>>>> 5a55b1e (feat: デフォルトではnotionの全体から記事を持ってくるようにした)\n  python main.py " hr (by decide))

end Pickles
